import Mathlib

/-!
Verification of the Alpine provisioning strategy
(`libmachine/provision/alpine.go`) of the `machine` repository.

The strategy is embedded shallowly.  A provisioning session is modelled as a
deterministic computation over an explicit trace of externally visible
actions (`Event`): every remote shell command issued through `SSHCommand`
and every call to the auth / swarm collaborators is appended to the trace.
The outcomes of these external actions are supplied by an oracle (`Exec`):
the `k`-th SSH command receives outcome `ex.ssh k`, and the two
collaborators receive `ex.auth` / `ex.swarm`.  Errors are an abstract type
`E`; the one error `Provision` constructs itself (the unsupported storage
driver error) gets its own constructor in `PErr`, so that propagating an
underlying error verbatim is distinguishable from manufacturing a new one.

The generic provisioning base, the registry, the action vocabularies and the
collaborators are declared by the repository outside the provided sources;
those pieces are modelled from the specification and are marked as such in
their doc comments.
-/

namespace Machine

/-- Modelled from the spec: the closed package-action vocabulary
`PackageAction ∈ {Install, Remove, Upgrade}` (package `pkgaction`, outside
the provided sources). -/
inductive PackageAction where
  | Install
  | Remove
  | Upgrade
deriving DecidableEq, Repr

/-- Modelled from the spec: the closed service-action vocabulary (package
`serviceaction`, outside the provided sources), rendered to a lowercase
token inside the service command template. -/
inductive ServiceAction where
  | Start
  | Stop
  | Restart
deriving DecidableEq, Repr

/-- Modelled from the spec: rendering of a service action to its lowercase
string token. -/
def ServiceAction.toCommandString : ServiceAction → String
  | .Start => "start"
  | .Stop => "stop"
  | .Restart => "restart"

/-- The Driver collaborator, reduced to the capabilities the strategy
consumes: `GetMachineName` and `DriverName` (command execution is routed
through the oracle). -/
structure Driver where
  machineName : String
  driverName : String
deriving DecidableEq, Repr

/-- Engine configuration (`engine.Options`), restricted to the fields the
Alpine strategy reads: storage driver, install URL and environment. -/
structure EngineOptions where
  StorageDriver : String
  InstallURL : String
  Env : List String
deriving DecidableEq, Repr

instance : Inhabited EngineOptions := ⟨⟨"", "", []⟩⟩

/-- TLS auth configuration (`auth.Options`), restricted to a caller-local
certificate directory and the three remote certificate paths that
remote-path rewriting fills in. -/
structure AuthOptions where
  CertDir : String
  CaCertRemotePath : String
  ServerCertRemotePath : String
  ServerKeyRemotePath : String
deriving DecidableEq, Repr

instance : Inhabited AuthOptions := ⟨⟨"", "", "", ""⟩⟩

/-- Swarm configuration (`swarm.Options`), restricted to the fields relevant
here: role flag, discovery endpoint and environment. -/
structure SwarmOptions where
  IsSwarm : Bool
  Discovery : String
  Env : List String
deriving DecidableEq, Repr

instance : Inhabited SwarmOptions := ⟨⟨false, "", []⟩⟩

/-- One externally visible action of a provisioning session: an SSH command,
a `ConfigureAuth` collaborator call (recording the auth options passed), or
a `configureSwarm` collaborator call (recording both option records
passed). -/
inductive Event where
  | ssh (cmd : String)
  | auth (a : AuthOptions)
  | swarm (s : SwarmOptions) (a : AuthOptions)
deriving DecidableEq, Repr

/-- The oracle supplying outcomes of external actions: `ssh k` is the
outcome of the `k`-th SSH command of the session (0-based), `auth` and
`swarm` the outcomes of the collaborator calls. -/
structure Exec (E : Type) where
  ssh : Nat → Except E String
  auth : Except E Unit
  swarm : Except E Unit

/-- The session state threaded through the computation: the trace of events
so far, and the number of SSH commands issued so far (the index the next SSH
command is billed to). -/
structure PState where
  events : List Event
  nssh : Nat
deriving DecidableEq, Repr

/-- The empty session state. -/
def PState.init : PState := ⟨[], 0⟩

/-- `GenericSSHCommander.SSHCommand`: records the command in the trace and
returns the oracle's outcome for it. -/
def sshCommand {E : Type} (ex : Exec E) (st : PState) (cmd : String) :
    PState × Except E String :=
  (⟨st.events ++ [Event.ssh cmd], st.nssh + 1⟩, ex.ssh st.nssh)

/-- The generic provisioning base (`GenericProvisioner`): per-OS paths, the
OS-release identifier, the package set, the three stored option records and
the bound driver. -/
structure GenericProvisioner where
  DockerOptionsDir : String
  DaemonOptionsFile : String
  OsReleaseID : String
  Packages : List String
  SwarmOptions : SwarmOptions
  AuthOptions : AuthOptions
  EngineOptions : EngineOptions
  Driver : Driver
deriving DecidableEq, Repr

/-- The Alpine strategy: a wrapper around the embedded generic base, as in
the Go struct `AlpineProvisioner { GenericProvisioner }`. -/
structure AlpineProvisioner where
  GenericProvisioner : GenericProvisioner
deriving DecidableEq, Repr

/-- `NewAlpineProvisioner`: the factory, binding a driver and filling in the
Alpine-specific paths, OS-release identifier and package set. -/
def NewAlpineProvisioner (d : Driver) : AlpineProvisioner :=
  { GenericProvisioner :=
    { DockerOptionsDir := "/etc/docker"
      DaemonOptionsFile := "/etc/conf.d/docker"
      OsReleaseID := "alpine"
      Packages := ["docker"]
      SwarmOptions := default
      AuthOptions := default
      EngineOptions := default
      Driver := d } }

/-- The Go method `AlpineProvisioner.String()`: the stable OS-family
identifier (named `toString` here because a member named `String` would
shadow the string type inside the namespace). -/
def AlpineProvisioner.toString (_ : AlpineProvisioner) := "alpine"

/-- Modelled from the spec: `drivers.DefaultEngineInstallURL`, the platform
default engine install URL constant (package `drivers`, outside the
provided sources). -/
def DefaultEngineInstallURL : String := "https://get.docker.com"

/-- Modelled from the spec: the single remote command issued by the generic
base's default `SetHostname` (writes the hostname to the host's naming
facility and updates local name resolution); its literal command text is
outside the provided sources, so it is represented by a distinguished
string. -/
def genericSetHostnameCmd (hostname : String) : String :=
  "generic: set hostname " ++ hostname

/-- The generic base's `SetHostname`: issues the hostname-set command and
surfaces its error verbatim. -/
def GenericProvisioner.SetHostname {E : Type} (_ : GenericProvisioner)
    (ex : Exec E) (st : PState) (hostname : String) :
    PState × Except E Unit :=
  match sshCommand ex st (genericSetHostnameCmd hostname) with
  | (st1, Except.error e) => (st1, Except.error e)
  | (st1, Except.ok _) => (st1, Except.ok ())

/-- Modelled from the spec: `hostnameTmpl`, the OS-specific
hostname-persistence template applied by the Alpine `SetHostname` override
(declared outside the provided sources); represented as a distinguished
command string parameterized by the hostname substituted into the
template. -/
def hostnameTmplCmd (hostname : String) : String :=
  "persist hostname " ++ hostname

/-- The hosts-file loopback-entry cleanup command issued first by the Alpine
`SetHostname` override (literal text from the source). -/
def hostsCleanupCmd : String :=
  "sed /127.0.1.1/d /etc/hosts > /tmp/hosts && cat /tmp/hosts | sudo tee /etc/hosts"

/-- `AlpineProvisioner.SetHostname`: hosts-file cleanup, then the generic
base's `SetHostname`, then the hostname-persistence template command, each
sub-step fail-fast. -/
def AlpineProvisioner.SetHostname {E : Type} (p : AlpineProvisioner)
    (ex : Exec E) (st : PState) (hostname : String) :
    PState × Except E Unit :=
  match sshCommand ex st hostsCleanupCmd with
  | (st1, Except.error e) => (st1, Except.error e)
  | (st1, Except.ok _) =>
    match p.GenericProvisioner.SetHostname ex st1 hostname with
    | (st2, Except.error e) => (st2, Except.error e)
    | (st2, Except.ok _) =>
      match sshCommand ex st2 (hostnameTmplCmd hostname) with
      | (st3, Except.error e) => (st3, Except.error e)
      | (st3, Except.ok _) => (st3, Except.ok ())

/-- `AlpineProvisioner.Service`: the service-supervisor command for this
family. -/
def AlpineProvisioner.Service {E : Type} (_ : AlpineProvisioner)
    (ex : Exec E) (st : PState) (name : String) (action : ServiceAction) :
    PState × Except E Unit :=
  match sshCommand ex st
      ("sudo rc-service " ++ name ++ " " ++ action.toCommandString) with
  | (st1, Except.error e) => (st1, Except.error e)
  | (st1, Except.ok _) => (st1, Except.ok ())

/-- `AlpineProvisioner.upgrade`: the dedicated engine-upgrade procedure.
The Go source switches on `Driver.DriverName()` with only a `default`
branch, so the behavior is driver-name-agnostic: issue the upgrade-all
command; on its success issue a reboot command whose outcome is discarded
by design. -/
def AlpineProvisioner.upgrade {E : Type} (p : AlpineProvisioner)
    (ex : Exec E) (st : PState) : PState × Except E Unit :=
  match p.GenericProvisioner.Driver.driverName with
  | _ =>
    match sshCommand ex st "sudo apk upgrade" with
    | (st1, Except.error e) => (st1, Except.error e)
    | (st1, Except.ok _) =>
      match sshCommand ex st1 "sudo reboot" with
      | (st2, _) => (st2, Except.ok ())

/-- `AlpineProvisioner.Package`: the `("docker", Upgrade)` pair delegates to
`upgrade`; `Install`/`Remove` translate to the boot-registration add/remove
commands; any other pair leaves the command empty, and the (possibly empty)
command is passed to `SSHCommand` as in the source. -/
def AlpineProvisioner.Package {E : Type} (p : AlpineProvisioner)
    (ex : Exec E) (st : PState) (name : String) (action : PackageAction) :
    PState × Except E Unit :=
  if name = "docker" ∧ action = PackageAction.Upgrade then
    p.upgrade ex st
  else
    let command : String :=
      match action with
      | PackageAction.Install => "sudo rc-update add " ++ name ++ " boot"
      | PackageAction.Remove => "sudo rc-update del " ++ name ++ " boot"
      | _ => ""
    match sshCommand ex st command with
    | (st1, Except.error e) => (st1, Except.error e)
    | (st1, Except.ok _) => (st1, Except.ok ())

/-- Modelled from the spec: `selectDocker`, the engine-selection step run
when the caller's install URL differs from the platform default (declared
outside the provided sources); it issues one remote command carrying the
URL and surfaces its error verbatim. -/
def selectDockerCmd (url : String) : String :=
  "select docker engine " ++ url

/-- Modelled from the spec: the `selectDocker` helper step. -/
def selectDocker {E : Type} (_ : AlpineProvisioner) (ex : Exec E)
    (st : PState) (url : String) : PState × Except E Unit :=
  match sshCommand ex st (selectDockerCmd url) with
  | (st1, Except.error e) => (st1, Except.error e)
  | (st1, Except.ok _) => (st1, Except.ok ())

/-- Modelled from the spec: the options-directory-creation command issued by
`makeDockerOptionsDir` (declared outside the provided sources), represented
as a distinguished command string carrying the strategy's options
directory. -/
def makeDockerOptionsDirCmd (dir : String) : String :=
  "create docker options dir " ++ dir

/-- Modelled from the spec: the `makeDockerOptionsDir` helper step, creating
the engine's options directory on the remote host. -/
def makeDockerOptionsDir {E : Type} (p : AlpineProvisioner) (ex : Exec E)
    (st : PState) : PState × Except E Unit :=
  match sshCommand ex st
      (makeDockerOptionsDirCmd p.GenericProvisioner.DockerOptionsDir) with
  | (st1, Except.error e) => (st1, Except.error e)
  | (st1, Except.ok _) => (st1, Except.ok ())

/-- Modelled from the spec: `setRemoteAuthOptions` (declared outside the
provided sources), deriving from the stored auth options a variant whose
remote certificate paths are the canonical locations under the strategy's
options directory. -/
def setRemoteAuthOptions (p : AlpineProvisioner) : AuthOptions :=
  let dir := p.GenericProvisioner.DockerOptionsDir
  { p.GenericProvisioner.AuthOptions with
    CaCertRemotePath := dir ++ "/ca.pem"
    ServerCertRemotePath := dir ++ "/server.pem"
    ServerKeyRemotePath := dir ++ "/server-key.pem" }

/-- Modelled from the spec: the `ConfigureAuth` collaborator call, recorded
in the trace with the auth options the strategy passes (its stored,
already-rewritten ones); its outcome comes from the oracle. -/
def ConfigureAuth {E : Type} (p : AlpineProvisioner) (ex : Exec E)
    (st : PState) : PState × Except E Unit :=
  (⟨st.events ++ [Event.auth p.GenericProvisioner.AuthOptions], st.nssh⟩,
    ex.auth)

/-- Modelled from the spec: the `configureSwarm` collaborator call, recorded
in the trace with the swarm and auth options passed; its outcome comes from
the oracle. -/
def configureSwarm {E : Type} (_ : AlpineProvisioner) (ex : Exec E)
    (st : PState) (so : SwarmOptions) (ao : AuthOptions) :
    PState × Except E Unit :=
  (⟨st.events ++ [Event.swarm so ao], st.nssh⟩, ex.swarm)

/-- The error type of `Provision`: either an underlying error from a remote
command or collaborator, propagated verbatim (`raw`), or the
unsupported-storage-driver error `Provision` constructs itself. -/
inductive PErr (E : Type) where
  | raw (e : E)
  | unsupportedDriver (s : String)
deriving DecidableEq, Repr

/-- The package-installation loop of `Provision`: install each package of
the set in declaration order, fail-fast. -/
def installPackages {E : Type} (p : AlpineProvisioner) (ex : Exec E)
    (st : PState) : List String → PState × Except E Unit
  | [] => (st, Except.ok ())
  | pkg :: rest =>
    match p.Package ex st pkg PackageAction.Install with
    | (st1, Except.error e) => (st1, Except.error e)
    | (st1, Except.ok _) => installPackages p ex st1 rest

/-- The final stretch of `Provision` after the engine-selection step:
options-directory creation, remote-path rewriting of the stored auth
options, the auth collaborator, the swarm collaborator.  Split out of
`provisionSteps` at a sequential join point of the source. -/
def provisionFinish {E : Type} (p : AlpineProvisioner) (ex : Exec E)
    (st : PState) (swarmOptions : SwarmOptions) :
    AlpineProvisioner × PState × Except (PErr E) Unit :=
  match makeDockerOptionsDir p ex st with
  | (st4, Except.error e) => (p, st4, Except.error (PErr.raw e))
  | (st4, Except.ok _) =>
    let p := { p with GenericProvisioner :=
      { p.GenericProvisioner with
        AuthOptions := setRemoteAuthOptions p } }
    match ConfigureAuth p ex st4 with
    | (st5, Except.error e) => (p, st5, Except.error (PErr.raw e))
    | (st5, Except.ok _) =>
      match configureSwarm p ex st5 swarmOptions
          p.GenericProvisioner.AuthOptions with
      | (st6, r) => (p, st6, r.mapError PErr.raw)

/-- The tail of `Provision` after the options are stored, the env merge has
produced the local `swarmOptions` copy, and the storage driver has been
resolved: hostname, packages, engine selection, then `provisionFinish`. -/
def AlpineProvisioner.provisionSteps {E : Type} (p : AlpineProvisioner)
    (ex : Exec E) (st : PState) (swarmOptions : SwarmOptions)
    (engineOptions : EngineOptions) :
    AlpineProvisioner × PState × Except (PErr E) Unit :=
  match p.SetHostname ex st p.GenericProvisioner.Driver.machineName with
  | (st1, Except.error e) => (p, st1, Except.error (PErr.raw e))
  | (st1, Except.ok _) =>
    match installPackages p ex st1 p.GenericProvisioner.Packages with
    | (st2, Except.error e) => (p, st2, Except.error (PErr.raw e))
    | (st2, Except.ok _) =>
      match
        (if engineOptions.InstallURL = DefaultEngineInstallURL then
          (st2, Except.ok ())
        else selectDocker p ex st2 engineOptions.InstallURL) with
      | (st3, Except.error e) => (p, st3, Except.error (PErr.raw e))
      | (st3, Except.ok _) => provisionFinish p ex st3 swarmOptions

/-- `AlpineProvisioner.Provision`: store the three option records on the
provisioner, merge the engine environment onto the local swarm-options
copy, resolve the storage driver (default `"overlay"` when empty, hard
error otherwise unless `"overlay"`), then run the remaining steps. -/
def AlpineProvisioner.Provision {E : Type} (p : AlpineProvisioner)
    (ex : Exec E) (st : PState) (swarmOptions : SwarmOptions)
    (authOptions : AuthOptions) (engineOptions : EngineOptions) :
    AlpineProvisioner × PState × Except (PErr E) Unit :=
  let p := { p with GenericProvisioner :=
    { p.GenericProvisioner with
      SwarmOptions := swarmOptions
      AuthOptions := authOptions
      EngineOptions := engineOptions } }
  let swarmOptions := { swarmOptions with Env := engineOptions.Env }
  if p.GenericProvisioner.EngineOptions.StorageDriver = "" then
    let p := { p with GenericProvisioner :=
      { p.GenericProvisioner with
        EngineOptions :=
          { p.GenericProvisioner.EngineOptions with
            StorageDriver := "overlay" } } }
    p.provisionSteps ex st swarmOptions engineOptions
  else if p.GenericProvisioner.EngineOptions.StorageDriver ≠ "overlay" then
    (p, st, Except.error
      (PErr.unsupportedDriver
        p.GenericProvisioner.EngineOptions.StorageDriver))
  else
    p.provisionSteps ex st swarmOptions engineOptions

/-- Modelled from the spec: a registry entry, pairing factory data the way
the Go `RegisteredProvisioner` struct does. -/
structure RegisteredProvisioner where
  New : Driver → AlpineProvisioner

/-- Modelled from the spec: the registry is a write-once table of
(symbolic name, factory) pairs; `Register` appends an entry. -/
def Register (name : String) (rp : RegisteredProvisioner)
    (reg : List (String × RegisteredProvisioner)) :
    List (String × RegisteredProvisioner) :=
  reg ++ [(name, rp)]

/-- Modelled from the spec: lookup-by-name in the registry. -/
def lookupProvisioner (name : String)
    (reg : List (String × RegisteredProvisioner)) :
    Option RegisteredProvisioner :=
  (reg.find? (fun pr => pr.1 = name)).map (fun pr => pr.2)

/-- The registration performed by the package's `init` function: the Alpine
factory under the name `"AlpineLinux"`, starting from the empty registry. -/
def initRegistry : List (String × RegisteredProvisioner) :=
  Register "AlpineLinux" ⟨NewAlpineProvisioner⟩ []

/-- Assigns the returned error of a session to the last external action of
its trace: the error is exactly the oracle's outcome for the most recently
issued SSH command (respectively collaborator call), and that action is the
last event of the trace, so nothing ran after it. -/
def lastEventBlames {E : Type} (ex : Exec E) (st : PState) (e : E) : Prop :=
  match st.events.getLast? with
  | some (Event.ssh _) => ex.ssh (st.nssh - 1) = Except.error e
  | some (Event.auth _) => ex.auth = Except.error e
  | some (Event.swarm _ _) => ex.swarm = Except.error e
  | none => False

/-- A concrete stub driver used for witness instances. -/
def dStub : Driver := ⟨"mach1", "virtualbox"⟩

/-- A concrete Alpine provisioner bound to the stub driver. -/
def pStub : AlpineProvisioner := NewAlpineProvisioner dStub

/-- A concrete oracle on which every external action succeeds. -/
def exAllOk : Exec Nat := ⟨fun _ => Except.ok "", Except.ok (), Except.ok ()⟩

/-- A concrete oracle on which the fourth SSH command fails with error `7`
and everything else succeeds. -/
def exFail3 : Exec Nat :=
  ⟨fun k => if k = 3 then Except.error 7 else Except.ok "",
    Except.ok (), Except.ok ()⟩

/-! ### Helper lemmas -/

lemma package_install_eq {E : Type} (p : AlpineProvisioner) (ex : Exec E)
    (st : PState) (name : String) :
    p.Package ex st name PackageAction.Install =
      (⟨st.events ++ [Event.ssh ("sudo rc-update add " ++ name ++ " boot")],
        st.nssh + 1⟩,
        Except.map (fun _ => ()) (ex.ssh st.nssh)) := by
  cases hx : ex.ssh st.nssh <;>
    simp [AlpineProvisioner.Package, sshCommand, hx, Except.map]

lemma package_remove_eq {E : Type} (p : AlpineProvisioner) (ex : Exec E)
    (st : PState) (name : String) :
    p.Package ex st name PackageAction.Remove =
      (⟨st.events ++ [Event.ssh ("sudo rc-update del " ++ name ++ " boot")],
        st.nssh + 1⟩,
        Except.map (fun _ => ()) (ex.ssh st.nssh)) := by
  cases hx : ex.ssh st.nssh <;>
    simp [AlpineProvisioner.Package, sshCommand, hx, Except.map]

lemma selectDocker_eq {E : Type} (p : AlpineProvisioner) (ex : Exec E)
    (st : PState) (url : String) :
    selectDocker p ex st url =
      (⟨st.events ++ [Event.ssh (selectDockerCmd url)], st.nssh + 1⟩,
        Except.map (fun _ => ()) (ex.ssh st.nssh)) := by
  cases hx : ex.ssh st.nssh <;> simp [selectDocker, sshCommand, hx, Except.map]

lemma makeDockerOptionsDir_eq {E : Type} (p : AlpineProvisioner) (ex : Exec E)
    (st : PState) :
    makeDockerOptionsDir p ex st =
      (⟨st.events ++
          [Event.ssh
            (makeDockerOptionsDirCmd p.GenericProvisioner.DockerOptionsDir)],
        st.nssh + 1⟩,
        Except.map (fun _ => ()) (ex.ssh st.nssh)) := by
  cases hx : ex.ssh st.nssh <;>
    simp [makeDockerOptionsDir, sshCommand, hx, Except.map]

lemma genericSetHostname_eq {E : Type} (g : GenericProvisioner) (ex : Exec E)
    (st : PState) (hostname : String) :
    g.SetHostname ex st hostname =
      (⟨st.events ++ [Event.ssh (genericSetHostnameCmd hostname)],
        st.nssh + 1⟩,
        Except.map (fun _ => ()) (ex.ssh st.nssh)) := by
  cases hx : ex.ssh st.nssh <;>
    simp [GenericProvisioner.SetHostname, sshCommand, hx, Except.map]

lemma setHostname_cleanup_error {E : Type} (p : AlpineProvisioner)
    (ex : Exec E) (st : PState) (hostname : String) (e : E)
    (hx : ex.ssh st.nssh = Except.error e) :
    p.SetHostname ex st hostname =
      (⟨st.events ++ [Event.ssh hostsCleanupCmd], st.nssh + 1⟩,
        Except.error e) := by
  simp [AlpineProvisioner.SetHostname, sshCommand, hx]

lemma setHostname_generic_error {E : Type} (p : AlpineProvisioner)
    (ex : Exec E) (st : PState) (hostname : String) (o0 : String) (e : E)
    (h0 : ex.ssh st.nssh = Except.ok o0)
    (h1 : ex.ssh (st.nssh + 1) = Except.error e) :
    p.SetHostname ex st hostname =
      (⟨st.events ++ [Event.ssh hostsCleanupCmd,
          Event.ssh (genericSetHostnameCmd hostname)],
        st.nssh + 2⟩,
        Except.error e) := by
  simp [AlpineProvisioner.SetHostname, sshCommand, h0,
    genericSetHostname_eq, h1, Except.map]

lemma setHostname_both_ok {E : Type} (p : AlpineProvisioner) (ex : Exec E)
    (st : PState) (hostname : String) (o0 o1 : String)
    (h0 : ex.ssh st.nssh = Except.ok o0)
    (h1 : ex.ssh (st.nssh + 1) = Except.ok o1) :
    p.SetHostname ex st hostname =
      (⟨st.events ++ [Event.ssh hostsCleanupCmd,
          Event.ssh (genericSetHostnameCmd hostname),
          Event.ssh (hostnameTmplCmd hostname)],
        st.nssh + 3⟩,
        Except.map (fun _ => ()) (ex.ssh (st.nssh + 2))) := by
  cases hx : ex.ssh (st.nssh + 2) <;>
    simp [AlpineProvisioner.SetHostname, sshCommand, h0,
      genericSetHostname_eq, h1, hx, Except.map]

lemma blames_ssh {E : Type} (ex : Exec E) (evs : List Event) (cmd : String)
    (n : Nat) (e : E) (h : ex.ssh n = Except.error e) :
    lastEventBlames ex ⟨evs ++ [Event.ssh cmd], n + 1⟩ e := by
  simp [lastEventBlames, List.getLast?_concat, h]

lemma setHostname_blame {E : Type} (p : AlpineProvisioner) (ex : Exec E)
    (st : PState) (hostname : String) (e : E)
    (h : (p.SetHostname ex st hostname).2 = Except.error e) :
    lastEventBlames ex (p.SetHostname ex st hostname).1 e := by
  cases h0 : ex.ssh st.nssh with
  | error e0 =>
    rw [setHostname_cleanup_error p ex st hostname e0 h0] at h ⊢
    cases h
    exact blames_ssh ex st.events hostsCleanupCmd st.nssh _ h0
  | ok o0 =>
    cases h1 : ex.ssh (st.nssh + 1) with
    | error e1 =>
      rw [setHostname_generic_error p ex st hostname o0 e1 h0 h1] at h ⊢
      cases h
      have := blames_ssh ex
        (st.events ++ [Event.ssh hostsCleanupCmd])
        (genericSetHostnameCmd hostname) (st.nssh + 1) _ h1
      simpa using this
    | ok o1 =>
      rw [setHostname_both_ok p ex st hostname o0 o1 h0 h1] at h ⊢
      cases h2 : ex.ssh (st.nssh + 2) with
      | error e2 =>
        rw [h2] at h
        cases h
        have := blames_ssh ex
          (st.events ++ [Event.ssh hostsCleanupCmd,
            Event.ssh (genericSetHostnameCmd hostname)])
          (hostnameTmplCmd hostname) (st.nssh + 2) _ h2
        simpa using this
      | ok o2 => rw [h2] at h; cases h

lemma package_install_blame {E : Type} (p : AlpineProvisioner) (ex : Exec E)
    (st : PState) (name : String) (e : E)
    (h : (p.Package ex st name PackageAction.Install).2 = Except.error e) :
    lastEventBlames ex (p.Package ex st name PackageAction.Install).1 e := by
  rw [package_install_eq] at h ⊢
  cases hx : ex.ssh st.nssh with
  | error e0 =>
    rw [hx] at h
    cases h
    exact blames_ssh ex st.events _ st.nssh _ hx
  | ok o => rw [hx] at h; cases h

lemma installPackages_blame {E : Type} (p : AlpineProvisioner) (ex : Exec E)
    (e : E) :
    ∀ (l : List String) (st : PState),
      (installPackages p ex st l).2 = Except.error e →
      lastEventBlames ex (installPackages p ex st l).1 e := by
  intro l
  induction l with
  | nil => intro st h; cases h
  | cons pkg rest ih =>
    intro st h
    rcases hP : p.Package ex st pkg PackageAction.Install with ⟨st1, r1⟩
    cases r1 with
    | error e1 =>
      rw [installPackages, hP] at h ⊢
      cases h
      have hb := package_install_blame p ex st pkg e (by rw [hP])
      rw [hP] at hb
      exact hb
    | ok _ =>
      rw [installPackages, hP] at h ⊢
      exact ih st1 h

lemma blames_auth {E : Type} (ex : Exec E) (evs : List Event)
    (a : AuthOptions) (n : Nat) (e : E) (h : ex.auth = Except.error e) :
    lastEventBlames ex ⟨evs ++ [Event.auth a], n⟩ e := by
  simp [lastEventBlames, List.getLast?_concat, h]

lemma blames_swarm {E : Type} (ex : Exec E) (evs : List Event)
    (so : SwarmOptions) (a : AuthOptions) (n : Nat) (e : E)
    (h : ex.swarm = Except.error e) :
    lastEventBlames ex ⟨evs ++ [Event.swarm so a], n⟩ e := by
  simp [lastEventBlames, List.getLast?_concat, h]

lemma setHostname_shape {E : Type} (p : AlpineProvisioner) (ex : Exec E)
    (st : PState) (hostname : String) :
    ∃ cmds : List String,
      (p.SetHostname ex st hostname).1.events =
        st.events ++ cmds.map Event.ssh := by
  cases h0 : ex.ssh st.nssh with
  | error e =>
    exact ⟨[hostsCleanupCmd],
      by simp [setHostname_cleanup_error p ex st hostname e h0]⟩
  | ok o0 =>
    cases h1 : ex.ssh (st.nssh + 1) with
    | error e =>
      exact ⟨[hostsCleanupCmd, genericSetHostnameCmd hostname],
        by simp [setHostname_generic_error p ex st hostname o0 e h0 h1]⟩
    | ok o1 =>
      exact ⟨[hostsCleanupCmd, genericSetHostnameCmd hostname,
          hostnameTmplCmd hostname],
        by simp [setHostname_both_ok p ex st hostname o0 o1 h0 h1]⟩

lemma installPackages_shape {E : Type} (p : AlpineProvisioner) (ex : Exec E) :
    ∀ (l : List String) (st : PState),
      ∃ cmds : List String,
        (installPackages p ex st l).1.events =
          st.events ++ cmds.map Event.ssh := by
  intro l
  induction l with
  | nil => intro st; exact ⟨[], by simp [installPackages]⟩
  | cons pkg rest ih =>
    intro st
    rcases hP : p.Package ex st pkg PackageAction.Install with ⟨st1, r1⟩
    have heq := package_install_eq p ex st pkg
    rw [hP] at heq
    have hst1 : st1.events =
        st.events ++ [Event.ssh ("sudo rc-update add " ++ pkg ++ " boot")] := by
      have := congrArg (fun x => (Prod.fst x).events) heq
      simpa using this
    cases r1 with
    | error e =>
      refine ⟨["sudo rc-update add " ++ pkg ++ " boot"], ?_⟩
      rw [installPackages, hP]
      simpa using hst1
    | ok _ =>
      obtain ⟨cmds, hc⟩ := ih st1
      refine ⟨("sudo rc-update add " ++ pkg ++ " boot") :: cmds, ?_⟩
      rw [installPackages, hP]
      simp [hc, hst1]

lemma swarm_mem_of_shape {evs evs' : List Event} {cmds : List String}
    (h : evs' = evs ++ cmds.map Event.ssh) (so' : SwarmOptions)
    (ao' : AuthOptions) (hm : Event.swarm so' ao' ∈ evs') :
    Event.swarm so' ao' ∈ evs := by
  subst h
  rcases List.mem_append.mp hm with h | h
  · exact h
  · simp [List.mem_map] at h

/-- The combined behavioral characterization of `provisionFinish`: the
returned provisioner is the input one, possibly with its auth options
rewritten; a raw error returned is exactly the oracle's error for the last
event of the trace; no unsupported-driver error arises here; and the only
swarm event the step can add records the given swarm options together with
the rewritten auth options. -/
lemma provisionFinish_master {E : Type} (p : AlpineProvisioner) (ex : Exec E)
    (st : PState) (so : SwarmOptions) :
    ((provisionFinish p ex st so).1 = p ∨
      (provisionFinish p ex st so).1 =
        { p with GenericProvisioner :=
          { p.GenericProvisioner with
            AuthOptions := setRemoteAuthOptions p } }) ∧
    (∀ e, (provisionFinish p ex st so).2.2 = Except.error (PErr.raw e) →
      lastEventBlames ex (provisionFinish p ex st so).2.1 e) ∧
    (∀ s, (provisionFinish p ex st so).2.2 ≠
      Except.error (PErr.unsupportedDriver s)) ∧
    (∀ so' ao', Event.swarm so' ao' ∈ (provisionFinish p ex st so).2.1.events →
      Event.swarm so' ao' ∈ st.events ∨
        (so' = so ∧ ao' = setRemoteAuthOptions p)) := by
  unfold provisionFinish
  rw [makeDockerOptionsDir_eq]
  cases hx : ex.ssh st.nssh with
  | error e =>
    refine ⟨Or.inl rfl, ?_, by simp [Except.map, hx], ?_⟩
    · intro e' he'
      simp [Except.map, hx] at he'
      subst he'
      exact blames_ssh ex st.events _ st.nssh e hx
    · intro so' ao' hm
      simp [Except.map, hx, List.mem_append] at hm ⊢
      tauto
  | ok o =>
    simp only [Except.map, hx]
    rw [ConfigureAuth]
    cases hau : ex.auth with
    | error e =>
      refine ⟨Or.inr rfl, ?_, by simp, ?_⟩
      · intro e' he'
        simp at he'
        subst he'
        exact blames_auth ex _ _ _ e hau
      · intro so' ao' hm
        simp [List.mem_append] at hm ⊢
        tauto
    | ok _ =>
      unfold configureSwarm
      cases hsw : ex.swarm with
      | error e =>
        refine ⟨Or.inr rfl, ?_, by simp [Except.mapError], ?_⟩
        · intro e' he'
          simp [Except.mapError] at he'
          subst he'
          exact blames_swarm ex _ _ _ _ e hsw
        · intro so' ao' hm
          simp [List.mem_append] at hm ⊢
          tauto
      | ok _ =>
        refine ⟨Or.inr rfl, ?_, by simp [Except.mapError], ?_⟩
        · intro e' he'
          simp [Except.mapError] at he'
        · intro so' ao' hm
          simp [List.mem_append] at hm ⊢
          tauto

/-- The combined behavioral characterization of `provisionSteps`, extending
`provisionFinish_master` through the hostname, package-installation and
engine-selection steps. -/
lemma provisionSteps_master {E : Type} (p : AlpineProvisioner) (ex : Exec E)
    (st : PState) (so : SwarmOptions) (eo : EngineOptions) :
    ((p.provisionSteps ex st so eo).1 = p ∨
      (p.provisionSteps ex st so eo).1 =
        { p with GenericProvisioner :=
          { p.GenericProvisioner with
            AuthOptions := setRemoteAuthOptions p } }) ∧
    (∀ e, (p.provisionSteps ex st so eo).2.2 = Except.error (PErr.raw e) →
      lastEventBlames ex (p.provisionSteps ex st so eo).2.1 e) ∧
    (∀ s, (p.provisionSteps ex st so eo).2.2 ≠
      Except.error (PErr.unsupportedDriver s)) ∧
    (∀ so' ao', Event.swarm so' ao' ∈ (p.provisionSteps ex st so eo).2.1.events →
      Event.swarm so' ao' ∈ st.events ∨
        (so' = so ∧ ao' = setRemoteAuthOptions p)) := by
  unfold AlpineProvisioner.provisionSteps
  obtain ⟨c1, hc1⟩ :=
    setHostname_shape p ex st p.GenericProvisioner.Driver.machineName
  rcases hSH : p.SetHostname ex st p.GenericProvisioner.Driver.machineName
    with ⟨st1, r1⟩
  rw [hSH] at hc1
  cases r1 with
  | error e =>
    dsimp only
    refine ⟨Or.inl rfl, ?_, by simp, ?_⟩
    · intro e' he'
      simp only [Except.error.injEq, PErr.raw.injEq] at he'
      subst he'
      have hb := setHostname_blame p ex st
        p.GenericProvisioner.Driver.machineName e (by rw [hSH])
      rwa [hSH] at hb
    · intro so' ao' hm
      exact Or.inl (swarm_mem_of_shape hc1 so' ao' hm)
  | ok _ =>
    dsimp only
    obtain ⟨c2, hc2⟩ :=
      installPackages_shape p ex p.GenericProvisioner.Packages st1
    rcases hIP : installPackages p ex st1 p.GenericProvisioner.Packages
      with ⟨st2, r2⟩
    rw [hIP] at hc2
    have hmem12 : ∀ so' ao', Event.swarm so' ao' ∈ st2.events →
        Event.swarm so' ao' ∈ st.events := fun so' ao' hm =>
      swarm_mem_of_shape hc1 so' ao' (swarm_mem_of_shape hc2 so' ao' hm)
    cases r2 with
    | error e =>
      dsimp only
      refine ⟨Or.inl rfl, ?_, by simp, ?_⟩
      · intro e' he'
        simp only [Except.error.injEq, PErr.raw.injEq] at he'
        subst he'
        have hb := installPackages_blame p ex e
          p.GenericProvisioner.Packages st1 (by rw [hIP])
        rwa [hIP] at hb
      · intro so' ao' hm
        exact Or.inl (hmem12 so' ao' hm)
    | ok _ =>
      dsimp only
      by_cases hurl : eo.InstallURL = DefaultEngineInstallURL
      · rw [if_pos hurl]
        dsimp only
        obtain ⟨hp, hbl, hns, hsw⟩ := provisionFinish_master p ex st2 so
        refine ⟨hp, hbl, hns, ?_⟩
        intro so' ao' hm
        rcases hsw so' ao' hm with hm' | hm'
        · exact Or.inl (hmem12 so' ao' hm')
        · exact Or.inr hm'
      · rw [if_neg hurl, selectDocker_eq]
        cases hx : ex.ssh st2.nssh with
        | error e =>
          simp only [Except.map, hx]
          refine ⟨by simp, ?_, by simp, ?_⟩
          · intro e' he'
            simp only [Except.error.injEq, PErr.raw.injEq] at he'
            subst he'
            exact blames_ssh ex st2.events _ st2.nssh e hx
          · intro so' ao' hm
            simp only [List.mem_append] at hm
            rcases hm with hm | hm
            · exact Or.inl (hmem12 so' ao' hm)
            · exact absurd hm (by simp)
        | ok o =>
          simp only [Except.map, hx]
          have hsh3 : (⟨st2.events ++ [Event.ssh (selectDockerCmd eo.InstallURL)],
              st2.nssh + 1⟩ : PState).events =
              st2.events ++ [selectDockerCmd eo.InstallURL].map Event.ssh := by
            simp
          obtain ⟨hp, hbl, hns, hsw⟩ := provisionFinish_master p ex
            ⟨st2.events ++ [Event.ssh (selectDockerCmd eo.InstallURL)],
              st2.nssh + 1⟩ so
          refine ⟨hp, hbl, hns, ?_⟩
          intro so' ao' hm
          rcases hsw so' ao' hm with hm' | hm'
          · exact Or.inl (hmem12 so' ao'
              (swarm_mem_of_shape hsh3 so' ao' hm'))
          · exact Or.inr hm'

lemma installPackages_all_ok {E : Type} (p : AlpineProvisioner) (ex : Exec E)
    (hssh : ∀ k, ∃ o, ex.ssh k = Except.ok o) :
    ∀ (l : List String) (st : PState),
      installPackages p ex st l =
        (⟨st.events ++
            l.map (fun n => Event.ssh ("sudo rc-update add " ++ n ++ " boot")),
          st.nssh + l.length⟩,
          Except.ok ()) := by
  intro l
  induction l with
  | nil => intro st; simp [installPackages]
  | cons pkg rest ih =>
    intro st
    obtain ⟨o, ho⟩ := hssh st.nssh
    rw [installPackages, package_install_eq, ho]
    simp only [Except.map]
    rw [ih]
    simp [List.append_assoc]
    omega

lemma provisionFinish_all_ok {E : Type} (p : AlpineProvisioner) (ex : Exec E)
    (st : PState) (so : SwarmOptions)
    (hssh : ∀ k, ∃ o, ex.ssh k = Except.ok o)
    (hauth : ex.auth = Except.ok ()) (hswarm : ex.swarm = Except.ok ()) :
    provisionFinish p ex st so =
      ({ p with GenericProvisioner :=
          { p.GenericProvisioner with
            AuthOptions := setRemoteAuthOptions p } },
        ⟨st.events ++
          [Event.ssh
              (makeDockerOptionsDirCmd p.GenericProvisioner.DockerOptionsDir),
            Event.auth (setRemoteAuthOptions p),
            Event.swarm so (setRemoteAuthOptions p)],
          st.nssh + 1⟩,
        Except.ok ()) := by
  obtain ⟨o, ho⟩ := hssh st.nssh
  unfold provisionFinish
  rw [makeDockerOptionsDir_eq, ho]
  simp only [Except.map]
  unfold ConfigureAuth
  rw [hauth]
  unfold configureSwarm
  rw [hswarm]
  simp [Except.mapError, List.append_assoc]

lemma provisionSteps_all_ok {E : Type} (p : AlpineProvisioner) (ex : Exec E)
    (st : PState) (so : SwarmOptions) (eo : EngineOptions)
    (hssh : ∀ k, ∃ o, ex.ssh k = Except.ok o)
    (hauth : ex.auth = Except.ok ()) (hswarm : ex.swarm = Except.ok ()) :
    p.provisionSteps ex st so eo =
      ({ p with GenericProvisioner :=
          { p.GenericProvisioner with
            AuthOptions := setRemoteAuthOptions p } },
        ⟨st.events ++
          [Event.ssh hostsCleanupCmd,
            Event.ssh
              (genericSetHostnameCmd p.GenericProvisioner.Driver.machineName),
            Event.ssh
              (hostnameTmplCmd p.GenericProvisioner.Driver.machineName)] ++
          p.GenericProvisioner.Packages.map
            (fun n => Event.ssh ("sudo rc-update add " ++ n ++ " boot")) ++
          (if eo.InstallURL = DefaultEngineInstallURL then []
            else [Event.ssh (selectDockerCmd eo.InstallURL)]) ++
          [Event.ssh
              (makeDockerOptionsDirCmd p.GenericProvisioner.DockerOptionsDir),
            Event.auth (setRemoteAuthOptions p),
            Event.swarm so (setRemoteAuthOptions p)],
          st.nssh + 3 + p.GenericProvisioner.Packages.length +
            (if eo.InstallURL = DefaultEngineInstallURL then 0 else 1) + 1⟩,
        Except.ok ()) := by
  obtain ⟨o0, h0⟩ := hssh st.nssh
  obtain ⟨o1, h1⟩ := hssh (st.nssh + 1)
  obtain ⟨o2, h2⟩ := hssh (st.nssh + 2)
  unfold AlpineProvisioner.provisionSteps
  rw [setHostname_both_ok p ex st p.GenericProvisioner.Driver.machineName
    o0 o1 h0 h1, h2]
  simp only [Except.map]
  rw [installPackages_all_ok p ex hssh]
  dsimp only
  by_cases hurl : eo.InstallURL = DefaultEngineInstallURL
  · rw [if_pos hurl]
    dsimp only
    rw [provisionFinish_all_ok p ex _ so hssh hauth hswarm]
    simp [hurl, List.append_assoc]
  · rw [if_neg hurl, selectDocker_eq]
    obtain ⟨o3, h3⟩ := hssh (st.nssh + 3 + p.GenericProvisioner.Packages.length)
    rw [h3]
    simp only [Except.map]
    rw [provisionFinish_all_ok p ex _ so hssh hauth hswarm]
    simp [hurl, List.append_assoc]

/-- The combined behavioral characterization of `Provision`: the stored
swarm options are the caller's un-merged ones; an empty storage driver is
resolved to `"overlay"`; a valid storage driver never produces the
unsupported-driver error; the unsupported-driver error names the caller's
storage driver and is raised before any event; a raw error is exactly the
oracle's error for the last event; and any swarm event added carries the
merged swarm options. -/
lemma provision_master {E : Type} (p : AlpineProvisioner) (ex : Exec E)
    (st : PState) (so : SwarmOptions) (ao : AuthOptions) (eo : EngineOptions) :
    ((p.Provision ex st so ao eo).1.GenericProvisioner.SwarmOptions = so) ∧
    (eo.StorageDriver = "" →
      (p.Provision ex st so ao eo).1.GenericProvisioner.EngineOptions.StorageDriver
        = "overlay") ∧
    ((eo.StorageDriver = "" ∨ eo.StorageDriver = "overlay") →
      ∀ s, (p.Provision ex st so ao eo).2.2 ≠
        Except.error (PErr.unsupportedDriver s)) ∧
    (∀ s, (p.Provision ex st so ao eo).2.2 =
        Except.error (PErr.unsupportedDriver s) →
      s = eo.StorageDriver ∧ (p.Provision ex st so ao eo).2.1 = st) ∧
    (∀ e, (p.Provision ex st so ao eo).2.2 = Except.error (PErr.raw e) →
      lastEventBlames ex (p.Provision ex st so ao eo).2.1 e) ∧
    (∀ so' ao', Event.swarm so' ao' ∈ (p.Provision ex st so ao eo).2.1.events →
      Event.swarm so' ao' ∈ st.events ∨ so' = { so with Env := eo.Env }) ∧
    (eo.StorageDriver ≠ "" → eo.StorageDriver ≠ "overlay" →
      (p.Provision ex st so ao eo).2.2 =
        Except.error (PErr.unsupportedDriver eo.StorageDriver) ∧
      (p.Provision ex st so ao eo).2.1 = st) := by
  unfold AlpineProvisioner.Provision
  dsimp only
  by_cases h1 : eo.StorageDriver = ""
  · rw [if_pos h1]
    obtain ⟨hpr, hbl, hns, hsw⟩ := provisionSteps_master
      { p with GenericProvisioner :=
        { p.GenericProvisioner with
          SwarmOptions := so
          AuthOptions := ao
          EngineOptions := { eo with StorageDriver := "overlay" } } }
      ex st { so with Env := eo.Env } eo
    refine ⟨?_, ?_, ?_, ?_, hbl, ?_, ?_⟩
    · rcases hpr with hpr | hpr <;> rw [hpr]
    · intro _
      rcases hpr with hpr | hpr <;> rw [hpr]
    · intro _ s
      exact hns s
    · intro s hs
      exact absurd hs (hns s)
    · intro so' ao' hm
      rcases hsw so' ao' hm with hm' | ⟨hm', _⟩
      · exact Or.inl hm'
      · exact Or.inr hm'
    · intro hne _
      exact absurd h1 hne
  · rw [if_neg h1]
    by_cases h2 : eo.StorageDriver = "overlay"
    · rw [if_neg (by simp [h2])]
      obtain ⟨hpr, hbl, hns, hsw⟩ := provisionSteps_master
        { p with GenericProvisioner :=
          { p.GenericProvisioner with
            SwarmOptions := so
            AuthOptions := ao
            EngineOptions := eo } }
        ex st { so with Env := eo.Env } eo
      refine ⟨?_, ?_, ?_, ?_, hbl, ?_, ?_⟩
      · rcases hpr with hpr | hpr <;> rw [hpr]
      · intro h
        exact absurd h h1
      · intro _ s
        exact hns s
      · intro s hs
        exact absurd hs (hns s)
      · intro so' ao' hm
        rcases hsw so' ao' hm with hm' | ⟨hm', _⟩
        · exact Or.inl hm'
        · exact Or.inr hm'
      · intro _ hne
        exact absurd h2 hne
    · rw [if_pos (by simp [h2])]
      refine ⟨rfl, ?_, ?_, ?_, ?_, ?_, ?_⟩
      · intro h
        exact absurd h h1
      · intro hd s
        rcases hd with hd | hd
        · exact absurd hd h1
        · exact absurd hd h2
      · intro s hs
        simp at hs
        exact ⟨hs.symm, rfl⟩
      · intro e he
        simp at he
      · intro so' ao' hm
        exact Or.inl hm
      · intro _ _
        exact ⟨rfl, rfl⟩

/-- Decidable equality on `Except`, used only to let witnesses evaluate the
model on concrete inputs with `decide`. -/
instance {ε α : Type} [DecidableEq ε] [DecidableEq α] :
    DecidableEq (Except ε α) := fun a b =>
  match a, b with
  | Except.error e1, Except.error e2 =>
    if h : e1 = e2 then isTrue (by rw [h])
    else isFalse (by intro hc; cases hc; exact h rfl)
  | Except.error _, Except.ok _ => isFalse (by intro hc; cases hc)
  | Except.ok _, Except.error _ => isFalse (by intro hc; cases hc)
  | Except.ok a1, Except.ok a2 =>
    if h : a1 = a2 then isTrue (by rw [h])
    else isFalse (by intro hc; cases hc; exact h rfl)

/-! ### Claim theorems -/

/-- Claim C1: if `engineOptions.StorageDriver` is empty, `Provision`
resolves the stored storage driver to `"overlay"` and never returns an
unsupported-driver error; if it is non-empty and not `"overlay"`,
`Provision` returns the unsupported-driver error naming that value and
issues zero remote commands (the trace is returned unchanged, so no
`SSHCommand` call precedes the error). -/
theorem alpine_provision_storage_driver {E : Type} (p : AlpineProvisioner)
    (ex : Exec E) (st : PState) (so : SwarmOptions) (ao : AuthOptions)
    (eo : EngineOptions) :
    (eo.StorageDriver = "" →
      (p.Provision ex st so ao eo).1.GenericProvisioner.EngineOptions.StorageDriver
          = "overlay" ∧
      ∀ s, (p.Provision ex st so ao eo).2.2 ≠
        Except.error (PErr.unsupportedDriver s)) ∧
    (eo.StorageDriver ≠ "" → eo.StorageDriver ≠ "overlay" →
      (p.Provision ex st so ao eo).2.2 =
        Except.error (PErr.unsupportedDriver eo.StorageDriver) ∧
      (p.Provision ex st so ao eo).2.1 = st) := by
  obtain ⟨h1, h2, h3, h4, h5, h6, h7⟩ := provision_master p ex st so ao eo
  exact ⟨fun he => ⟨h2 he, h3 (Or.inl he)⟩, h7⟩

/-- Witness for C1, at an empty and at a `"btrfs"` storage driver. -/
theorem alpine_provision_storage_driver_witness :
    ((pStub.Provision exAllOk PState.init default default
        ⟨"", "", []⟩).1.GenericProvisioner.EngineOptions.StorageDriver
          = "overlay" ∧
      ∀ s, (pStub.Provision exAllOk PState.init default default
        ⟨"", "", []⟩).2.2 ≠ Except.error (PErr.unsupportedDriver s)) ∧
    ((pStub.Provision exAllOk PState.init default default
        ⟨"btrfs", "", []⟩).2.2 =
        Except.error (PErr.unsupportedDriver "btrfs") ∧
      (pStub.Provision exAllOk PState.init default default
        ⟨"btrfs", "", []⟩).2.1 = PState.init) :=
  ⟨(alpine_provision_storage_driver pStub exAllOk PState.init default default
      ⟨"", "", []⟩).1 rfl,
    (alpine_provision_storage_driver pStub exAllOk PState.init default default
      ⟨"btrfs", "", []⟩).2 (by decide) (by decide)⟩

/-- Claim C2: `Package("docker", Upgrade)` delegates to `upgrade`, which
issues exactly `"sudo apk upgrade"`; if that command fails its error is
returned with no reboot command issued, and if it succeeds a
`"sudo reboot"` command is issued and `upgrade` returns success regardless
of the reboot outcome (no `rc-update` command ever appears). -/
theorem alpine_package_docker_upgrade {E : Type} (p : AlpineProvisioner)
    (ex : Exec E) (st : PState) :
    p.Package ex st "docker" PackageAction.Upgrade = p.upgrade ex st ∧
    (∀ e, ex.ssh st.nssh = Except.error e →
      p.upgrade ex st =
        (⟨st.events ++ [Event.ssh "sudo apk upgrade"], st.nssh + 1⟩,
          Except.error e)) ∧
    (∀ o, ex.ssh st.nssh = Except.ok o →
      p.upgrade ex st =
        (⟨st.events ++ [Event.ssh "sudo apk upgrade",
            Event.ssh "sudo reboot"], st.nssh + 2⟩,
          Except.ok ())) := by
  refine ⟨by simp [AlpineProvisioner.Package], ?_, ?_⟩
  · intro e he
    unfold AlpineProvisioner.upgrade
    simp [sshCommand, he]
  · intro o ho
    unfold AlpineProvisioner.upgrade
    simp [sshCommand, ho]

/-- Witness for C2, on an oracle failing the upgrade command and on one
where every command succeeds. -/
theorem alpine_package_docker_upgrade_witness :
    pStub.upgrade exFail3 ⟨[], 3⟩ =
      (⟨[Event.ssh "sudo apk upgrade"], 4⟩, Except.error 7) ∧
    pStub.upgrade exAllOk PState.init =
      (⟨[Event.ssh "sudo apk upgrade", Event.ssh "sudo reboot"], 2⟩,
        Except.ok ()) := by
  constructor
  · have h := (alpine_package_docker_upgrade pStub exFail3 ⟨[], 3⟩).2.1 7
      (by decide)
    simpa using h
  · have h := (alpine_package_docker_upgrade pStub exAllOk PState.init).2.2 ""
      rfl
    simpa using h

/-- Counterexample to C3 as stated: for the unmatched pair
(`"curl"`, `Upgrade`) the computed command is the empty string, yet
`Package` does execute it — the trace gains one SSH event (the empty
command) instead of remaining empty. -/
theorem alpine_package_nocase_counterexample :
    (pStub.Package exAllOk PState.init "curl" PackageAction.Upgrade).1.events
        = [Event.ssh ""] ∧
    (pStub.Package exAllOk PState.init "curl" PackageAction.Upgrade).1.events
        ≠ PState.init.events := by
  decide

/-- Claim C3 (amended): for every package name other than `"docker"` and
the `Upgrade` action (the only pair matching no case of the switch), the
computed command is the empty string, and `Package` nonetheless passes it
to `SSHCommand`: exactly one remote command — the empty string — is
issued, and the executor's outcome for it is propagated. -/
theorem alpine_package_nocase_empty_command {E : Type}
    (p : AlpineProvisioner) (ex : Exec E) (st : PState) (name : String)
    (hname : name ≠ "docker") :
    p.Package ex st name PackageAction.Upgrade =
      (⟨st.events ++ [Event.ssh ""], st.nssh + 1⟩,
        Except.map (fun _ => ()) (ex.ssh st.nssh)) := by
  cases hx : ex.ssh st.nssh <;>
    simp [AlpineProvisioner.Package, sshCommand, hx, hname, Except.map]

/-- Witness for the amended C3, at the package name `"curl"`. -/
theorem alpine_package_nocase_empty_command_witness :
    pStub.Package exAllOk PState.init "curl" PackageAction.Upgrade =
      (⟨[Event.ssh ""], 1⟩, Except.ok ()) := by
  rw [alpine_package_nocase_empty_command pStub exAllOk PState.init "curl"
    (by decide)]
  rfl

/-- Claim C4: when every remote command and collaborator call succeeds and
the storage driver setting is supported, `Provision` starting from the
empty trace issues exactly, in order: the hosts-file cleanup command, the
generic hostname-set command, the hostname-persistence command, one
boot-register install command per entry of the package set in declaration
order, the engine-selection command only when the install URL differs from
the platform default, the options-directory-creation command, exactly one
auth collaborator call carrying the remote-path-rewritten auth options
(not the caller's original paths), and exactly one swarm collaborator
call; and it returns success. -/
theorem alpine_provision_command_order {E : Type} (p : AlpineProvisioner)
    (ex : Exec E) (so : SwarmOptions) (ao : AuthOptions) (eo : EngineOptions)
    (hssh : ∀ k, ∃ o, ex.ssh k = Except.ok o)
    (hauth : ex.auth = Except.ok ()) (hswarm : ex.swarm = Except.ok ())
    (hsd : eo.StorageDriver = "" ∨ eo.StorageDriver = "overlay") :
    (p.Provision ex PState.init so ao eo).2.1.events =
      [Event.ssh hostsCleanupCmd,
        Event.ssh (genericSetHostnameCmd p.GenericProvisioner.Driver.machineName),
        Event.ssh (hostnameTmplCmd p.GenericProvisioner.Driver.machineName)] ++
      p.GenericProvisioner.Packages.map
        (fun n => Event.ssh ("sudo rc-update add " ++ n ++ " boot")) ++
      (if eo.InstallURL = DefaultEngineInstallURL then []
        else [Event.ssh (selectDockerCmd eo.InstallURL)]) ++
      [Event.ssh
          (makeDockerOptionsDirCmd p.GenericProvisioner.DockerOptionsDir),
        Event.auth
          { ao with
            CaCertRemotePath :=
              p.GenericProvisioner.DockerOptionsDir ++ "/ca.pem"
            ServerCertRemotePath :=
              p.GenericProvisioner.DockerOptionsDir ++ "/server.pem"
            ServerKeyRemotePath :=
              p.GenericProvisioner.DockerOptionsDir ++ "/server-key.pem" },
        Event.swarm { so with Env := eo.Env }
          { ao with
            CaCertRemotePath :=
              p.GenericProvisioner.DockerOptionsDir ++ "/ca.pem"
            ServerCertRemotePath :=
              p.GenericProvisioner.DockerOptionsDir ++ "/server.pem"
            ServerKeyRemotePath :=
              p.GenericProvisioner.DockerOptionsDir ++ "/server-key.pem" }] ∧
    (p.Provision ex PState.init so ao eo).2.2 = Except.ok () := by
  unfold AlpineProvisioner.Provision
  dsimp only
  rcases hsd with h | h
  · rw [if_pos h, provisionSteps_all_ok _ ex _ _ _ hssh hauth hswarm]
    simp [setRemoteAuthOptions, PState.init, List.append_assoc]
  · rw [if_neg (by simp [h]), if_neg (by simp [h]),
      provisionSteps_all_ok _ ex _ _ _ hssh hauth hswarm]
    simp [setRemoteAuthOptions, PState.init, List.append_assoc]

/-- Witness for C4, on the all-success oracle with a non-default install
URL. -/
theorem alpine_provision_command_order_witness :
    (pStub.Provision exAllOk PState.init
        (⟨true, "tok", ["S"]⟩ : SwarmOptions)
        (⟨"/local/certs", "", "", ""⟩ : AuthOptions)
        (⟨"", "", ["E"]⟩ : EngineOptions)).2.1.events =
      [Event.ssh hostsCleanupCmd,
        Event.ssh (genericSetHostnameCmd
          pStub.GenericProvisioner.Driver.machineName),
        Event.ssh (hostnameTmplCmd
          pStub.GenericProvisioner.Driver.machineName)] ++
      pStub.GenericProvisioner.Packages.map
        (fun n => Event.ssh ("sudo rc-update add " ++ n ++ " boot")) ++
      (if (⟨"", "", ["E"]⟩ : EngineOptions).InstallURL = DefaultEngineInstallURL
        then []
        else [Event.ssh (selectDockerCmd
          (⟨"", "", ["E"]⟩ : EngineOptions).InstallURL)]) ++
      [Event.ssh (makeDockerOptionsDirCmd
          pStub.GenericProvisioner.DockerOptionsDir),
        Event.auth
          { (⟨"/local/certs", "", "", ""⟩ : AuthOptions) with
            CaCertRemotePath :=
              pStub.GenericProvisioner.DockerOptionsDir ++ "/ca.pem"
            ServerCertRemotePath :=
              pStub.GenericProvisioner.DockerOptionsDir ++ "/server.pem"
            ServerKeyRemotePath :=
              pStub.GenericProvisioner.DockerOptionsDir ++ "/server-key.pem" },
        Event.swarm
          { (⟨true, "tok", ["S"]⟩ : SwarmOptions) with
            Env := (⟨"", "", ["E"]⟩ : EngineOptions).Env }
          { (⟨"/local/certs", "", "", ""⟩ : AuthOptions) with
            CaCertRemotePath :=
              pStub.GenericProvisioner.DockerOptionsDir ++ "/ca.pem"
            ServerCertRemotePath :=
              pStub.GenericProvisioner.DockerOptionsDir ++ "/server.pem"
            ServerKeyRemotePath :=
              pStub.GenericProvisioner.DockerOptionsDir ++ "/server-key.pem" }] ∧
    (pStub.Provision exAllOk PState.init
        (⟨true, "tok", ["S"]⟩ : SwarmOptions)
        (⟨"/local/certs", "", "", ""⟩ : AuthOptions)
        (⟨"", "", ["E"]⟩ : EngineOptions)).2.2 = Except.ok () :=
  alpine_provision_command_order pStub exAllOk
    (⟨true, "tok", ["S"]⟩ : SwarmOptions)
    (⟨"/local/certs", "", "", ""⟩ : AuthOptions)
    (⟨"", "", ["E"]⟩ : EngineOptions)
    (fun _ => ⟨"", rfl⟩) rfl rfl (Or.inl rfl)

/-- Claim C5: the first failing step short-circuits `Provision`: an
unsupported-driver error names exactly the caller's storage driver and is
raised with the trace unchanged, and a propagated error is exactly the
oracle's error for the last action of the trace — the failing remote
command or collaborator call — so nothing ran after the failure and the
error is not wrapped or replaced. -/
theorem alpine_provision_first_failure {E : Type} (p : AlpineProvisioner)
    (ex : Exec E) (st : PState) (so : SwarmOptions) (ao : AuthOptions)
    (eo : EngineOptions) :
    (∀ s, (p.Provision ex st so ao eo).2.2 =
        Except.error (PErr.unsupportedDriver s) →
      s = eo.StorageDriver ∧ (p.Provision ex st so ao eo).2.1 = st) ∧
    (∀ e, (p.Provision ex st so ao eo).2.2 = Except.error (PErr.raw e) →
      lastEventBlames ex (p.Provision ex st so ao eo).2.1 e) :=
  ⟨(provision_master p ex st so ao eo).2.2.2.1,
    (provision_master p ex st so ao eo).2.2.2.2.1⟩

/-- Witness for C5, at a `"btrfs"` driver and at an oracle failing the
fourth remote command (the package-install command). -/
theorem alpine_provision_first_failure_witness :
    ("btrfs" = (⟨"btrfs", "", []⟩ : EngineOptions).StorageDriver ∧
      (pStub.Provision exAllOk PState.init default default
        ⟨"btrfs", "", []⟩).2.1 = PState.init) ∧
    lastEventBlames exFail3
      (pStub.Provision exFail3 PState.init default default
        ⟨"", "", []⟩).2.1 7 :=
  ⟨(alpine_provision_first_failure pStub exAllOk PState.init default default
      ⟨"btrfs", "", []⟩).1 "btrfs" (by decide),
    (alpine_provision_first_failure pStub exFail3 PState.init default default
      ⟨"", "", []⟩).2 7 (by decide)⟩

/-- Claim C6: `Package(name, Install)` issues exactly the single command
`sudo rc-update add name boot`, `Package(name, Remove)` exactly
`sudo rc-update del name boot`, and calling `Install` then `Remove` for the
same name issues exactly that add/remove pair in order with nothing
interleaved. -/
theorem alpine_package_install_remove {E : Type} (p : AlpineProvisioner)
    (ex : Exec E) (st : PState) (name : String) :
    p.Package ex st name PackageAction.Install =
      (⟨st.events ++ [Event.ssh ("sudo rc-update add " ++ name ++ " boot")],
        st.nssh + 1⟩,
        Except.map (fun _ => ()) (ex.ssh st.nssh)) ∧
    p.Package ex st name PackageAction.Remove =
      (⟨st.events ++ [Event.ssh ("sudo rc-update del " ++ name ++ " boot")],
        st.nssh + 1⟩,
        Except.map (fun _ => ()) (ex.ssh st.nssh)) ∧
    (p.Package ex (p.Package ex st name PackageAction.Install).1 name
        PackageAction.Remove).1.events =
      st.events ++
        [Event.ssh ("sudo rc-update add " ++ name ++ " boot"),
          Event.ssh ("sudo rc-update del " ++ name ++ " boot")] := by
  refine ⟨package_install_eq p ex st name, package_remove_eq p ex st name, ?_⟩
  rw [package_install_eq, package_remove_eq]
  simp

/-- Claim C7: the Alpine `SetHostname` runs its three sub-steps strictly in
order — hosts-file cleanup, the generic base's hostname-set command, the
hostname-persistence template command — and is fail-fast: a cleanup failure
returns that error with neither later sub-step issued, a generic-step
failure returns that error with the persistence command not issued, and
when both earlier steps succeed all three commands appear in order. -/
theorem alpine_sethostname_steps {E : Type} (p : AlpineProvisioner)
    (ex : Exec E) (st : PState) (hostname : String) :
    (∀ e, ex.ssh st.nssh = Except.error e →
      p.SetHostname ex st hostname =
        (⟨st.events ++ [Event.ssh hostsCleanupCmd], st.nssh + 1⟩,
          Except.error e)) ∧
    (∀ o0 e, ex.ssh st.nssh = Except.ok o0 →
      ex.ssh (st.nssh + 1) = Except.error e →
      p.SetHostname ex st hostname =
        (⟨st.events ++ [Event.ssh hostsCleanupCmd,
            Event.ssh (genericSetHostnameCmd hostname)], st.nssh + 2⟩,
          Except.error e)) ∧
    (∀ o0 o1, ex.ssh st.nssh = Except.ok o0 →
      ex.ssh (st.nssh + 1) = Except.ok o1 →
      p.SetHostname ex st hostname =
        (⟨st.events ++ [Event.ssh hostsCleanupCmd,
            Event.ssh (genericSetHostnameCmd hostname),
            Event.ssh (hostnameTmplCmd hostname)], st.nssh + 3⟩,
          Except.map (fun _ => ()) (ex.ssh (st.nssh + 2)))) :=
  ⟨fun e he => setHostname_cleanup_error p ex st hostname e he,
    fun o0 e h0 h1 => setHostname_generic_error p ex st hostname o0 e h0 h1,
    fun o0 o1 h0 h1 => setHostname_both_ok p ex st hostname o0 o1 h0 h1⟩

/-- Witness for C7, on an oracle failing the cleanup command and on the
all-success oracle. -/
theorem alpine_sethostname_steps_witness :
    pStub.SetHostname exFail3 ⟨[], 3⟩ "newname" =
      (⟨[Event.ssh hostsCleanupCmd], 4⟩, Except.error 7) ∧
    pStub.SetHostname exAllOk PState.init "newname" =
      (⟨[Event.ssh hostsCleanupCmd,
          Event.ssh (genericSetHostnameCmd "newname"),
          Event.ssh (hostnameTmplCmd "newname")], 3⟩, Except.ok ()) := by
  constructor
  · have h := (alpine_sethostname_steps pStub exFail3 ⟨[], 3⟩ "newname").1 7
      (by decide)
    simpa using h
  · have h := (alpine_sethostname_steps pStub exAllOk PState.init
      "newname").2.2 "" "" rfl rfl
    simpa using h

/-- Claim C8: any swarm collaborator call recorded during a `Provision`
call passes swarm options whose `Env` field equals `engineOptions.Env`. -/
theorem alpine_provision_swarm_env {E : Type} (p : AlpineProvisioner)
    (ex : Exec E) (st : PState) (so : SwarmOptions) (ao : AuthOptions)
    (eo : EngineOptions) (so' : SwarmOptions) (ao' : AuthOptions)
    (hmem : Event.swarm so' ao' ∈ (p.Provision ex st so ao eo).2.1.events)
    (hnew : Event.swarm so' ao' ∉ st.events) :
    so'.Env = eo.Env := by
  rcases (provision_master p ex st so ao eo).2.2.2.2.2.1 so' ao' hmem
    with h | h
  · exact absurd h hnew
  · rw [h]

/-- Witness for C8, at the concrete swarm event of an all-success run. -/
theorem alpine_provision_swarm_env_witness :
    (⟨true, "tok", ["E"]⟩ : SwarmOptions).Env =
      (⟨"", "", ["E"]⟩ : EngineOptions).Env :=
  alpine_provision_swarm_env pStub exAllOk PState.init
    (⟨true, "tok", ["S"]⟩ : SwarmOptions)
    (⟨"/local/certs", "", "", ""⟩ : AuthOptions)
    (⟨"", "", ["E"]⟩ : EngineOptions)
    (⟨true, "tok", ["E"]⟩ : SwarmOptions)
    (⟨"/local/certs", "/etc/docker/ca.pem", "/etc/docker/server.pem",
      "/etc/docker/server-key.pem"⟩ : AuthOptions)
    (by decide) (by decide)

/-- Claim C9: registering the Alpine factory under `"AlpineLinux"`, looking
that name up, and applying the factory to any driver yields a provisioner
whose identifier is `"alpine"` and whose package set is exactly
`["docker"]`. -/
theorem alpine_registry_roundtrip (d : Driver) :
    ∃ rp, lookupProvisioner "AlpineLinux" initRegistry = some rp ∧
      (rp.New d).toString = "alpine" ∧
      (rp.New d).GenericProvisioner.Packages = ["docker"] := by
  refine ⟨⟨NewAlpineProvisioner⟩, ?_, rfl, rfl⟩
  rfl

/-- Claim C10: `Provision` stores the caller's option records by value
before the environment merge, so the provisioner's stored swarm options
after `Provision` equal the caller's original ones (the merge never reaches
them), while the swarm collaborator receives the local merged copy — the
original options with only `Env` replaced by `engineOptions.Env`. -/
theorem alpine_provision_value_semantics {E : Type} (p : AlpineProvisioner)
    (ex : Exec E) (st : PState) (so : SwarmOptions) (ao : AuthOptions)
    (eo : EngineOptions) :
    (p.Provision ex st so ao eo).1.GenericProvisioner.SwarmOptions = so ∧
    (∀ so' ao',
      Event.swarm so' ao' ∈ (p.Provision ex st so ao eo).2.1.events →
      Event.swarm so' ao' ∈ st.events ∨ so' = { so with Env := eo.Env }) :=
  ⟨(provision_master p ex st so ao eo).1,
    (provision_master p ex st so ao eo).2.2.2.2.2.1⟩

/-- Witness for C10: on an all-success run the stored swarm options keep
the caller's environment `["S"]` while the recorded swarm call carries the
merged copy. -/
theorem alpine_provision_value_semantics_witness :
    (pStub.Provision exAllOk PState.init
        (⟨true, "tok", ["S"]⟩ : SwarmOptions) default
        (⟨"", "", ["E"]⟩ : EngineOptions)).1.GenericProvisioner.SwarmOptions =
      (⟨true, "tok", ["S"]⟩ : SwarmOptions) ∧
    (Event.swarm (⟨true, "tok", ["E"]⟩ : SwarmOptions)
        (⟨"", "/etc/docker/ca.pem", "/etc/docker/server.pem",
          "/etc/docker/server-key.pem"⟩ : AuthOptions) ∈ PState.init.events ∨
      (⟨true, "tok", ["E"]⟩ : SwarmOptions) =
        { (⟨true, "tok", ["S"]⟩ : SwarmOptions) with
          Env := (⟨"", "", ["E"]⟩ : EngineOptions).Env }) :=
  ⟨(alpine_provision_value_semantics pStub exAllOk PState.init
      (⟨true, "tok", ["S"]⟩ : SwarmOptions) default
      (⟨"", "", ["E"]⟩ : EngineOptions)).1,
    (alpine_provision_value_semantics pStub exAllOk PState.init
      (⟨true, "tok", ["S"]⟩ : SwarmOptions) default
      (⟨"", "", ["E"]⟩ : EngineOptions)).2
      (⟨true, "tok", ["E"]⟩ : SwarmOptions)
      (⟨"", "/etc/docker/ca.pem", "/etc/docker/server.pem",
        "/etc/docker/server-key.pem"⟩ : AuthOptions)
      (by decide)⟩

end Machine
